import Mathlib

/-!
Shallow embedding of the playback and catalog logic of `src/bot.py`
(a Discord music bot).  Pure data is modelled directly; the external
collaborators are modelled as oracles:

* `Oracle.resolve` — whether the try-block of `play_track` (yt-dlp
  extraction / FFmpeg source construction / `voice_client.play`)
  succeeds for a given track;
* `Oracle.rand` — the index source consumed by `random.shuffle`
  (CPython implements Fisher-Yates: for i from n-1 down to 1,
  swap x[i] with x[rand i mod (i+1)]);
* `Oracle.now` — the wall clock read by `datetime.now()`, in seconds.

The audio sink (`discord.VoiceClient`) is modelled by the field
`sink_source`: `voice_client.play(source, after=...)` sets it, and both
natural completion and `voice_client.stop()` clear it and invoke the
registered after-callback, which runs `play_next` on the bot loop.
Ghost counters (`attach_count`, `pop_count`, `presence_update_count`)
record how many times `voice_client.play`, `track_queue.popleft` and
`bot.change_presence` were invoked.
-/

namespace BBot

/-- `Track` record from `bot.py` (`source_path` and `url` may be
Python `None`, hence `Option`). -/
structure Track where
  title : String
  artist : String
  duration : Nat
  source_type : String
  source_path : Option String
  url : Option String
deriving Repr, DecidableEq

/-- External-world oracles: stream resolution outcome, `random.shuffle`
randomness, and the current time in seconds. -/
structure Oracle where
  resolve : Track → Bool
  rand : Nat → Nat
  now : Nat

/-- State of the `MusicPlayer` singleton plus the sink model and ghost
counters. -/
structure MusicPlayer where
  voice_client : Bool
  sink_source : Option Track
  current_track : Option Track
  track_queue : List Track
  is_playing : Bool
  tracks : List Track
  playlists : List (String × List Track)
  now_playing_message : Option String
  last_activity_update : Option Nat
  presence : Option String
  attach_count : Nat
  pop_count : Nat
  presence_update_count : Nat
deriving Repr, DecidableEq

/-! ### `random.shuffle` (CPython Fisher-Yates), as called by `shuffle_tracks` -/

/-- One Fisher-Yates exchange `x[i], x[j] = x[j], x[i]`. -/
def fySwap (xs : List α) (i j : Nat) : List α :=
  match xs[i]?, xs[j]? with
  | some a, some b => (xs.set i b).set j a
  | _, _ => xs

/-- The loop `for i in reversed(range(1, len(x)))` of `random.shuffle`:
the counter argument is the current value of `i`. -/
def fyRound (rand : Nat → Nat) : Nat → List α → List α
  | 0, xs => xs
  | Nat.succ k, xs => fyRound rand k (fySwap xs (k + 1) (rand (k + 1) % (k + 2)))

/-- `random.shuffle` on a list, with the calls to `_randbelow(i+1)`
supplied by the oracle `rand`. -/
def shuffleList (rand : Nat → Nat) (xs : List α) : List α :=
  fyRound rand (xs.length - 1) xs

/-- `MusicPlayer.shuffle_tracks`: shuffle a copy of the catalog and
replace the queue with it (`self.track_queue = deque(available_tracks)`). -/
def shuffle_tracks (o : Oracle) (st : MusicPlayer) : MusicPlayer :=
  { st with track_queue := shuffleList o.rand st.tracks }

/-! ### `update_presence` -/

/-- `timedelta.seconds` of `now - last`: the seconds component of the
difference, i.e. the total seconds modulo one day. -/
def tdSeconds (now last : Nat) : Nat :=
  (now - last) % 86400

/-- The guard of `update_presence`: `not self.last_activity_update or
(datetime.now() - self.last_activity_update).seconds > 5`. -/
def presenceOk (now : Nat) (last : Option Nat) : Bool :=
  match last with
  | none => true
  | some l => decide (5 < tdSeconds now l)

/-- `MusicPlayer.update_presence`: update the activity only when there
is a track and either no previous update or more than 5 seconds (of the
`timedelta.seconds` component) have elapsed. -/
def update_presence (now : Nat) (track : Option Track) (st : MusicPlayer) :
    MusicPlayer :=
  match track with
  | none => st
  | some t =>
    if presenceOk now st.last_activity_update then
      { st with
        presence := some (t.title ++ " - " ++ t.artist)
        last_activity_update := some now
        presence_update_count := st.presence_update_count + 1 }
    else st

/-! ### `play_track` / `play_next` -/

/-- The now-playing chat message edit at the end of `play_track` (only
performed when a message object exists). -/
def editNowPlaying (t : Track) : Option String → Option String
  | some _ => some ("Now Playing: " ++ t.title ++ " - " ++ t.artist)
  | none => none

/-- The successful tail of `play_track`: `voice_client.play(source,
after=play_next)` attaches the source, then `update_presence`, then the
now-playing message edit. -/
def attachTrack (o : Oracle) (t : Track) (st : MusicPlayer) : MusicPlayer :=
  let st2 := update_presence o.now (some t)
    { st with
      sink_source := some t
      attach_count := st.attach_count + 1 }
  { st2 with now_playing_message := editNowPlaying t st2.now_playing_message }

/-- `self.current_track = self.track_queue.popleft()` in `play_next`,
with `t :: rest` the queue contents. -/
def popHead (t : Track) (rest : List Track) (st : MusicPlayer) : MusicPlayer :=
  { st with
    current_track := some t
    track_queue := rest
    pop_count := st.pop_count + 1 }

/-- `MusicPlayer.play_next`, fuelled (the Python code recurses through
the event loop and does not terminate when every resolution fails over
a non-empty catalog).  Body: lazy refill via `shuffle_tracks` when the
queue is empty; then, if the queue is non-empty and a voice client
exists, pop the head into `current_track` and run `play_track` on it,
whose failure branch (`except`) calls `play_next` again. -/
def playNextF (o : Oracle) : Nat → MusicPlayer → MusicPlayer
  | 0, st => st
  | fuel + 1, st =>
    let st1 := if st.track_queue.isEmpty then shuffle_tracks o st else st
    match st1.track_queue with
    | [] => st1
    | t :: rest =>
      if st1.voice_client then
        let st2 := popHead t rest st1
        if !st2.voice_client then st2
        else if o.resolve t then attachTrack o t st2
        else playNextF o fuel st2
      else st1

/-- `MusicPlayer.play_track`: bail out without a voice client; on a
successful try-block attach the source; on an exception fall into
`play_next`. -/
def playTrackF (o : Oracle) (fuel : Nat) (t : Track) (st : MusicPlayer) :
    MusicPlayer :=
  if !st.voice_client then st
  else if o.resolve t then attachTrack o t st
  else playNextF o fuel st

/-- The state reached after `play_next` has popped and discarded every
element of an all-failing queue, one `popleft` per element (a proof
device for reasoning about queue exhaustion). -/
def drainFail : List Track → MusicPlayer → MusicPlayer
  | [], st => st
  | t :: rest, st => drainFail rest (popHead t rest st)

/-! ### Commands -/

/-- The `!stop` command: when a voice client exists and the sink is
playing, `voice_client.stop()` halts the source — which fires the
registered after-callback, scheduling `play_next` on the bot loop —
then the handler sets `is_playing = False` and clears the presence;
the scheduled `play_next` runs afterwards. -/
def stop (o : Oracle) (fuel : Nat) (st : MusicPlayer) : MusicPlayer :=
  if st.voice_client && st.sink_source.isSome then
    let st1 := { st with
      sink_source := none
      is_playing := false
      presence := none }
    playNextF o fuel st1
  else st

/-- The `!skip` command: when the sink is playing, `voice_client.stop()`
halts the source and the after-callback runs `play_next` — the same
completion-signal path as natural completion. -/
def skip (o : Oracle) (fuel : Nat) (st : MusicPlayer) : MusicPlayer :=
  if st.voice_client && st.sink_source.isSome then
    playNextF o fuel { st with sink_source := none }
  else st

/-- The `!start` command: reject users outside a voice channel; connect
a voice client if none; if not already `is_playing`, set the flag, post
the starting message and run `play_next`. -/
def start (o : Oracle) (fuel : Nat) (userInVoice : Bool) (st : MusicPlayer) :
    MusicPlayer :=
  if !userInVoice then st
  else
    let st1 := if !st.voice_client then { st with voice_client := true } else st
    if !st1.is_playing then
      let st2 := { st1 with
        is_playing := true
        now_playing_message := some "Starting playback..." }
      playNextF o fuel st2
    else st1

/-! ### `add_playlist` and persistence -/

/-- One element of `playlist_data['tracks']` from the SoundCloud
resolve API (every field a `.get`, i.e. possibly absent). -/
structure SCTrackData where
  title : Option String
  username : Option String
  duration : Option Nat
  stream_url : Option String
  permalink_url : Option String
deriving Repr, DecidableEq

/-- The playlist object returned by `resolve_soundcloud_url`. -/
structure SCPlaylistData where
  title : Option String
  tracks : List SCTrackData
deriving Repr, DecidableEq

/-- Outcome of `resolve_soundcloud_url(url)`: either `(None, None)`
(non-playlist kind, HTTP failure, or exception) or a permalink URL with
the playlist data. -/
inductive SCResolution where
  | failed
  | playlist (url : String) (data : SCPlaylistData)
deriving Repr, DecidableEq

/-- One non-`None` element of `info['entries']` from yt-dlp. -/
structure YDLEntry where
  title : Option String
  uploader : Option String
  duration : Option Nat
  url : Option String
  webpage_url : Option String
  original_url : Option String
deriving Repr, DecidableEq

/-- The `info` dict returned by `ydl.extract_info` (`None` when
extraction returns nothing). -/
structure YDLInfo where
  title : Option String
  entries : Option (List (Option YDLEntry))
deriving Repr, DecidableEq

/-- The `Track` built in the SoundCloud branch of `add_playlist`. -/
def trackOfSC (d : SCTrackData) : Track :=
  { title := d.title.getD "Unknown"
    artist := d.username.getD "Unknown"
    duration := d.duration.getD 0 / 1000
    source_type := "soundcloud"
    source_path :=
      match d.stream_url with
      | some s => some s
      | none => d.permalink_url
    url := d.permalink_url }

/-- The `Track` built in the yt-dlp branch of `add_playlist`. -/
def trackOfEntry (e : YDLEntry) : Track :=
  { title := e.title.getD "Unknown"
    artist := e.uploader.getD "Unknown"
    duration := e.duration.getD 0
    source_type := "soundcloud"
    source_path :=
      match e.url with
      | some s => some s
      | none => e.webpage_url
    url :=
      match e.original_url with
      | some s => some s
      | none => e.webpage_url }

/-- Catalog-side state of the player together with the on-disk files
(`tracks.json`, `playlists.json`) and ghost counters of the save
routines. -/
structure CatalogState where
  tracks : List Track
  playlists : List (String × List Track)
  tracksFile : List Track
  playlistsFile : List (String × List Track)
  save_tracks_calls : Nat
  save_playlists_calls : Nat
deriving Repr, DecidableEq

/-- Python dict assignment `self.playlists[name] = track_list` on an
insertion-ordered mapping. -/
def upsert (k : String) (v : List Track) (m : List (String × List Track)) :
    List (String × List Track) :=
  if m.any (fun p => p.1 == k) then
    m.map (fun p => if p.1 == k then (k, v) else p)
  else m ++ [(k, v)]

/-- `MusicPlayer.save_playlists`: overwrite `playlists.json` wholesale. -/
def save_playlists (s : CatalogState) : CatalogState :=
  { s with
    playlistsFile := s.playlists
    save_playlists_calls := s.save_playlists_calls + 1 }

/-- `MusicPlayer.save_tracks`: overwrite `tracks.json` wholesale.
(Defined in `bot.py` but never invoked by any code path.) -/
def save_tracks (s : CatalogState) : CatalogState :=
  { s with
    tracksFile := s.tracks
    save_tracks_calls := s.save_tracks_calls + 1 }

/-- The yt-dlp fallback section of `add_playlist` (from
`with yt_dlp.YoutubeDL(ydl_opts) as ydl:` onwards). -/
def add_playlist_ydl (ydl : Option YDLInfo) (name : Option String)
    (s : CatalogState) : (Bool × String) × CatalogState :=
  match ydl with
  | none => ((false, "Could not extract playlist information"), s)
  | some info =>
    match info.entries with
    | none => ((false, "No tracks found in playlist"), s)
    | some entries =>
      let playlist_name := name.getD (info.title.getD "Unnamed Playlist")
      let newTracks := (entries.filterMap id).map trackOfEntry
      let s1 := { s with
        tracks := s.tracks ++ newTracks
        playlists := upsert playlist_name newTracks s.playlists }
      let s2 := save_playlists s1
      let msg := "Added playlist: " ++ playlist_name ++ " with " ++
        toString newTracks.length ++ " tracks"
      ((true, msg), s2)

/-- `MusicPlayer.add_playlist`.  `isSoundcloud` is the test
`'soundcloud.com' in url`; `sc` is the outcome of
`resolve_soundcloud_url`; `ydl` the outcome of `ydl.extract_info` in
the fallback.  In the SoundCloud branch the per-track loop appends each
track object to the catalog before `track_list` is checked for
emptiness; with zero tracks the loop appends nothing, a failure is
returned and nothing is saved.  Otherwise the playlist entry is stored
and only `save_playlists` runs (`save_tracks` is never called). -/
def add_playlist (isSoundcloud : Bool) (sc : SCResolution)
    (ydl : Option YDLInfo) (name : Option String) (s : CatalogState) :
    (Bool × String) × CatalogState :=
  if isSoundcloud then
    match sc with
    | .playlist _ pd =>
      let playlist_name := name.getD (pd.title.getD "Unnamed Playlist")
      let newTracks := pd.tracks.map trackOfSC
      let s1 := { s with tracks := s.tracks ++ newTracks }
      if newTracks.isEmpty then
        ((false, "No tracks found in playlist"), s1)
      else
        let s2 := { s1 with
          playlists := upsert playlist_name newTracks s1.playlists }
        let s3 := save_playlists s2
        let msg := "Added playlist: " ++ playlist_name ++ " with " ++
          toString newTracks.length ++ " tracks"
        ((true, msg), s3)
    | .failed => add_playlist_ydl ydl name s
  else add_playlist_ydl ydl name s

/-- The tracks discovered by the yt-dlp branch of `add_playlist`
(read off the branch structure of the source). -/
def discovered_tracks_ydl (ydl : Option YDLInfo) : List Track :=
  match ydl with
  | some info =>
    match info.entries with
    | some entries => (entries.filterMap id).map trackOfEntry
    | none => []
  | none => []

/-- The tracks discovered by an `add_playlist` invocation. -/
def discovered_tracks (isSoundcloud : Bool) (sc : SCResolution)
    (ydl : Option YDLInfo) : List Track :=
  if isSoundcloud then
    match sc with
    | .playlist _ pd => pd.tracks.map trackOfSC
    | .failed => discovered_tracks_ydl ydl
  else discovered_tracks_ydl ydl

/-- The playlist name chosen by the yt-dlp branch of `add_playlist`
(arbitrary when extraction failed, since no name is used then). -/
def result_name_ydl (ydl : Option YDLInfo) (name : Option String) : String :=
  match ydl with
  | some info => name.getD (info.title.getD "Unnamed Playlist")
  | none => ""

/-- The playlist name chosen by an `add_playlist` invocation. -/
def result_playlist_name (isSoundcloud : Bool) (sc : SCResolution)
    (ydl : Option YDLInfo) (name : Option String) : String :=
  if isSoundcloud then
    match sc with
    | .playlist _ pd => name.getD (pd.title.getD "Unnamed Playlist")
    | .failed => result_name_ydl ydl name
  else result_name_ydl ydl name

/-! ### Concrete fixtures used by witnesses and counterexamples -/

/-- Sample local track. -/
def tA : Track :=
  { title := "A", artist := "alpha", duration := 100
    source_type := "local", source_path := some "a.mp3", url := none }

/-- Sample remote track. -/
def tB : Track :=
  { title := "B", artist := "beta", duration := 120
    source_type := "soundcloud", source_path := some "b"
    url := some "b.url" }

/-- Sample local track. -/
def tC : Track :=
  { title := "C", artist := "gamma", duration := 90
    source_type := "local", source_path := some "c.mp3", url := none }

/-- Oracle on which every resolution succeeds. -/
def oAll : Oracle :=
  { resolve := fun _ => true, rand := fun _ => 0, now := 100 }

/-- Oracle on which only the track titled `A` fails to resolve. -/
def oFailA : Oracle :=
  { resolve := fun t => !(t.title == "A"), rand := fun _ => 0, now := 100 }

/-- A freshly constructed player with nothing loaded. -/
def basePlayer : MusicPlayer :=
  { voice_client := false, sink_source := none, current_track := none
    track_queue := [], is_playing := false, tracks := [], playlists := []
    now_playing_message := none, last_activity_update := none
    presence := none, attach_count := 0, pop_count := 0
    presence_update_count := 0 }

/-- A fresh catalog state with empty files. -/
def baseCatalog : CatalogState :=
  { tracks := [], playlists := [], tracksFile := [], playlistsFile := []
    save_tracks_calls := 0, save_playlists_calls := 0 }

/-- A player currently rendering `tA` with `tB` queued. -/
def stPlayingA : MusicPlayer :=
  { basePlayer with
    voice_client := true, sink_source := some tA, current_track := some tA
    is_playing := true, track_queue := [tB], tracks := [tA, tB]
    presence := some "A - alpha" }

/-- A player with a three-track catalog and no voice client. -/
def stCatalog3 : MusicPlayer :=
  { basePlayer with tracks := [tA, tB, tC] }

/-- A player with a voice client and queue `[tA, tB, tC]` (used with
`oFailA`, under which the head fails and the second head resolves). -/
def stQueue3 : MusicPlayer :=
  { basePlayer with voice_client := true, track_queue := [tA, tB, tC] }

/-- A player with no voice client, a non-empty queue and catalog, and a
current track. -/
def stNoClient : MusicPlayer :=
  { basePlayer with
    track_queue := [tA], tracks := [tB], current_track := some tC }

/-- A SoundCloud API track object. -/
def scT : SCTrackData :=
  { title := some "S", username := some "U", duration := some 180000
    stream_url := some "stream", permalink_url := some "perma" }

/-- A one-track SoundCloud playlist object. -/
def scPL : SCPlaylistData := { title := some "P", tracks := [scT] }

/-- A yt-dlp `info` dict whose `entries` key holds an empty list. -/
def ydlEmptyEntries : YDLInfo := { title := some "P", entries := some [] }

/-! ## Permutation facts about the Fisher-Yates model -/

/-- Writing `a` over position `m` (which holds `b`) and re-consing `b`
permutes `a :: t`. -/
theorem cons_set_perm {α : Type} (a b : α) :
    ∀ (t : List α) (m : Nat), t[m]? = some b →
      List.Perm (b :: t.set m a) (a :: t) := by
  intro t
  induction t with
  | nil => intro m h; simp at h
  | cons c t ih =>
    intro m h
    cases m with
    | zero =>
      simp only [List.getElem?_cons_zero, Option.some.injEq] at h
      subst h
      simpa using List.Perm.swap a c t
    | succ m =>
      simp only [List.getElem?_cons_succ] at h
      rw [List.set_cons_succ]
      exact ((List.Perm.swap c b _).trans ((ih m h).cons c)).trans
        (List.Perm.swap a c t)

/-- The double `set` performing an exchange is a permutation. -/
theorem set_set_perm {α : Type} :
    ∀ (xs : List α) (i j : Nat) (a b : α),
      xs[i]? = some a → xs[j]? = some b →
      List.Perm ((xs.set i b).set j a) xs := by
  intro xs
  induction xs with
  | nil => intro i j a b hi _; simp at hi
  | cons x t ih =>
    intro i j a b hi hj
    cases i with
    | zero =>
      simp only [List.getElem?_cons_zero, Option.some.injEq] at hi
      subst hi
      cases j with
      | zero =>
        simp only [List.getElem?_cons_zero, Option.some.injEq] at hj
        subst hj
        simp
      | succ m =>
        simp only [List.getElem?_cons_succ] at hj
        rw [List.set_cons_zero, List.set_cons_succ]
        exact cons_set_perm x b t m hj
    | succ k =>
      simp only [List.getElem?_cons_succ] at hi
      cases j with
      | zero =>
        simp only [List.getElem?_cons_zero, Option.some.injEq] at hj
        subst hj
        rw [List.set_cons_succ, List.set_cons_zero]
        exact cons_set_perm x a t k hi
      | succ m =>
        simp only [List.getElem?_cons_succ] at hj
        rw [List.set_cons_succ, List.set_cons_succ]
        exact (ih k m a b hi hj).cons x

/-- One Fisher-Yates exchange permutes the list. -/
theorem fySwap_perm {α : Type} (xs : List α) (i j : Nat) :
    List.Perm (fySwap xs i j) xs := by
  unfold fySwap
  cases hi : xs[i]? with
  | none => exact List.Perm.refl xs
  | some a =>
    cases hj : xs[j]? with
    | none => exact List.Perm.refl xs
    | some b => exact set_set_perm xs i j a b hi hj

/-- Every round of the Fisher-Yates loop permutes the list. -/
theorem fyRound_perm {α : Type} (rand : Nat → Nat) :
    ∀ (n : Nat) (xs : List α), List.Perm (fyRound rand n xs) xs := by
  intro n
  induction n with
  | zero => intro xs; exact List.Perm.refl xs
  | succ k ih =>
    intro xs
    rw [fyRound]
    exact (ih _).trans (fySwap_perm xs (k + 1) (rand (k + 1) % (k + 2)))

/-- The `random.shuffle` model returns a permutation of its input. -/
theorem shuffleList_perm {α : Type} (rand : Nat → Nat) (xs : List α) :
    List.Perm (shuffleList rand xs) xs :=
  fyRound_perm rand (xs.length - 1) xs

/-- Shuffling the empty list yields the empty list. -/
theorem shuffleList_nil {α : Type} (rand : Nat → Nat) :
    shuffleList rand ([] : List α) = [] := rfl

/-! ## Frame lemmas for the presence reporter and the sink attach -/

/-- `update_presence` touches only the presence fields. -/
theorem update_presence_frame (now : Nat) (tr : Option Track)
    (st : MusicPlayer) :
    (update_presence now tr st).voice_client = st.voice_client ∧
    (update_presence now tr st).sink_source = st.sink_source ∧
    (update_presence now tr st).current_track = st.current_track ∧
    (update_presence now tr st).track_queue = st.track_queue ∧
    (update_presence now tr st).tracks = st.tracks ∧
    (update_presence now tr st).is_playing = st.is_playing ∧
    (update_presence now tr st).now_playing_message =
      st.now_playing_message ∧
    (update_presence now tr st).attach_count = st.attach_count ∧
    (update_presence now tr st).pop_count = st.pop_count := by
  unfold update_presence
  cases tr with
  | none => exact ⟨rfl, rfl, rfl, rfl, rfl, rfl, rfl, rfl, rfl⟩
  | some t =>
    cases h : presenceOk now st.last_activity_update <;> simp [h]

@[simp] theorem update_presence_track_queue (now : Nat) (tr : Option Track)
    (st : MusicPlayer) :
    (update_presence now tr st).track_queue = st.track_queue :=
  (update_presence_frame now tr st).2.2.2.1

@[simp] theorem update_presence_sink_source (now : Nat) (tr : Option Track)
    (st : MusicPlayer) :
    (update_presence now tr st).sink_source = st.sink_source :=
  (update_presence_frame now tr st).2.1

@[simp] theorem update_presence_current_track (now : Nat)
    (tr : Option Track) (st : MusicPlayer) :
    (update_presence now tr st).current_track = st.current_track :=
  (update_presence_frame now tr st).2.2.1

@[simp] theorem update_presence_voice_client (now : Nat)
    (tr : Option Track) (st : MusicPlayer) :
    (update_presence now tr st).voice_client = st.voice_client :=
  (update_presence_frame now tr st).1

@[simp] theorem update_presence_tracks (now : Nat) (tr : Option Track)
    (st : MusicPlayer) :
    (update_presence now tr st).tracks = st.tracks :=
  (update_presence_frame now tr st).2.2.2.2.1

@[simp] theorem update_presence_is_playing (now : Nat) (tr : Option Track)
    (st : MusicPlayer) :
    (update_presence now tr st).is_playing = st.is_playing :=
  (update_presence_frame now tr st).2.2.2.2.2.1

@[simp] theorem update_presence_attach_count (now : Nat)
    (tr : Option Track) (st : MusicPlayer) :
    (update_presence now tr st).attach_count = st.attach_count :=
  (update_presence_frame now tr st).2.2.2.2.2.2.2.1

@[simp] theorem update_presence_pop_count (now : Nat) (tr : Option Track)
    (st : MusicPlayer) :
    (update_presence now tr st).pop_count = st.pop_count :=
  (update_presence_frame now tr st).2.2.2.2.2.2.2.2

@[simp] theorem attachTrack_sink_source (o : Oracle) (t : Track)
    (st : MusicPlayer) : (attachTrack o t st).sink_source = some t := by
  simp [attachTrack]

@[simp] theorem attachTrack_attach_count (o : Oracle) (t : Track)
    (st : MusicPlayer) :
    (attachTrack o t st).attach_count = st.attach_count + 1 := by
  simp [attachTrack]

@[simp] theorem attachTrack_track_queue (o : Oracle) (t : Track)
    (st : MusicPlayer) :
    (attachTrack o t st).track_queue = st.track_queue := by
  simp [attachTrack]

@[simp] theorem attachTrack_current_track (o : Oracle) (t : Track)
    (st : MusicPlayer) :
    (attachTrack o t st).current_track = st.current_track := by
  simp [attachTrack]

@[simp] theorem attachTrack_pop_count (o : Oracle) (t : Track)
    (st : MusicPlayer) : (attachTrack o t st).pop_count = st.pop_count := by
  simp [attachTrack]

@[simp] theorem attachTrack_tracks (o : Oracle) (t : Track)
    (st : MusicPlayer) : (attachTrack o t st).tracks = st.tracks := by
  simp [attachTrack]

@[simp] theorem popHead_fields (t : Track) (rest : List Track)
    (st : MusicPlayer) :
    (popHead t rest st).current_track = some t ∧
    (popHead t rest st).track_queue = rest ∧
    (popHead t rest st).pop_count = st.pop_count + 1 ∧
    (popHead t rest st).voice_client = st.voice_client ∧
    (popHead t rest st).sink_source = st.sink_source ∧
    (popHead t rest st).attach_count = st.attach_count ∧
    (popHead t rest st).tracks = st.tracks := by
  simp [popHead]

/-! ## Unfolding lemmas for `play_next` -/

/-- With a non-empty queue and a voice client, one `play_next` step pops
the head and runs the `play_track` body on it. -/
theorem playNextF_cons (o : Oracle) (f : Nat) (st : MusicPlayer)
    (t : Track) (rest : List Track)
    (hq : st.track_queue = t :: rest) (hvc : st.voice_client = true) :
    playNextF o (f + 1) st =
      (if o.resolve t then attachTrack o t (popHead t rest st)
       else playNextF o f (popHead t rest st)) := by
  rw [playNextF]
  simp [hq, hvc, popHead]

/-- With an empty queue and an empty catalog, `play_next` refills the
queue with the (empty) shuffled catalog and plays nothing. -/
theorem playNextF_empty_empty (o : Oracle) (fuel : Nat) (st : MusicPlayer)
    (hq : st.track_queue = []) (hcat : st.tracks = []) :
    (playNextF o fuel st).attach_count = st.attach_count ∧
    (playNextF o fuel st).sink_source = st.sink_source ∧
    (playNextF o fuel st).track_queue = [] ∧
    (playNextF o fuel st).pop_count = st.pop_count ∧
    (playNextF o fuel st).current_track = st.current_track := by
  cases fuel with
  | zero => simp [playNextF, hq]
  | succ f =>
    rw [playNextF]
    simp [hq, hcat, shuffle_tracks, shuffleList_nil]

/-- Without a voice client, one `play_next` step is at most the lazy
refill. -/
theorem playNextF_no_client (o : Oracle) (f : Nat) (st : MusicPlayer)
    (hvc : st.voice_client = false) :
    playNextF o (f + 1) st =
      if st.track_queue.isEmpty then shuffle_tracks o st else st := by
  rw [playNextF]
  cases hq : st.track_queue with
  | nil =>
    simp only [hq, List.isEmpty_nil, if_true]
    cases hsh : (shuffle_tracks o st).track_queue with
    | nil => simp [hsh]
    | cons t rest =>
      have : (shuffle_tracks o st).voice_client = false := by
        simp [shuffle_tracks, hvc]
      simp [hsh, this]
  | cons t rest =>
    simp [hq, hvc]

/-- When some track in the queue resolves, `play_next` attaches exactly
one source before the queue runs out. -/
theorem playNextF_attaches (o : Oracle) :
    ∀ (q : List Track) (fuel : Nat) (st : MusicPlayer),
      st.track_queue = q → st.voice_client = true →
      (∃ t ∈ q, o.resolve t = true) → q.length ≤ fuel →
      (playNextF o fuel st).attach_count = st.attach_count + 1 ∧
      (playNextF o fuel st).sink_source.isSome = true := by
  intro q
  induction q with
  | nil =>
    intro fuel st _ _ hex _
    rcases hex with ⟨t, ht, _⟩
    simp at ht
  | cons t rest ih =>
    intro fuel st hq hvc hex hlen
    cases fuel with
    | zero => simp at hlen
    | succ f =>
      rw [playNextF_cons o f st t rest hq hvc]
      cases hr : o.resolve t with
      | true => simp [popHead]
      | false =>
        simp only [Bool.false_eq_true, if_false]
        rcases hex with ⟨u, hu, hru⟩
        have hu' : u ∈ rest := by
          rcases List.mem_cons.mp hu with h | h
          · subst h; rw [hr] at hru; exact absurd hru (by simp)
          · exact h
        have hres := ih f (popHead t rest st) (by simp [popHead])
          (by simp [popHead, hvc]) ⟨u, hu', hru⟩
          (by simpa using Nat.le_of_succ_le_succ hlen)
        refine ⟨?_, hres.2⟩
        rw [hres.1]
        simp [popHead]

/-! ## Claim theorems -/

/-- C3: `shuffle_tracks` replaces the queue with a permutation of the
full current catalog — the queue contains every catalog track exactly
once — and an empty catalog yields an empty queue rather than an
error.  Quantified over every state and every randomness oracle. -/
theorem C3_shuffle_is_catalog_permutation (o : Oracle) (st : MusicPlayer) :
    List.Perm (shuffle_tracks o st).track_queue st.tracks ∧
    (st.tracks = [] → (shuffle_tracks o st).track_queue = []) := by
  constructor
  · exact shuffleList_perm o.rand st.tracks
  · intro h
    simp [shuffle_tracks, h, shuffleList_nil]

/-- C3 witness: the permutation property evaluated on a concrete
three-track catalog. -/
theorem C3_shuffle_is_catalog_permutation_witness :
    List.Perm (shuffle_tracks oAll stCatalog3).track_queue
      stCatalog3.tracks ∧
    (stCatalog3.tracks = [] →
      (shuffle_tracks oAll stCatalog3).track_queue = []) :=
  C3_shuffle_is_catalog_permutation oAll stCatalog3

/-- C10: with no voice client attached, `play_next` pops no track,
attaches nothing, and leaves `current_track` (and a non-empty queue)
unchanged; an empty queue may only be lazily refilled with the shuffled
catalog; and `shuffle_tracks` operates on a copy, never mutating the
catalog list. -/
theorem C10_play_next_without_client_frame (o : Oracle) (f : Nat)
    (st : MusicPlayer) (hvc : st.voice_client = false) :
    (playNextF o (f + 1) st).current_track = st.current_track ∧
    (playNextF o (f + 1) st).pop_count = st.pop_count ∧
    (playNextF o (f + 1) st).attach_count = st.attach_count ∧
    (playNextF o (f + 1) st).sink_source = st.sink_source ∧
    (playNextF o (f + 1) st).tracks = st.tracks ∧
    (st.track_queue ≠ [] →
      (playNextF o (f + 1) st).track_queue = st.track_queue) ∧
    (st.track_queue = [] →
      (playNextF o (f + 1) st).track_queue = shuffleList o.rand st.tracks) ∧
    (shuffle_tracks o st).tracks = st.tracks := by
  rw [playNextF_no_client o f st hvc]
  cases hq : st.track_queue with
  | nil => simp [hq, shuffle_tracks]
  | cons t rest => simp [hq, shuffle_tracks]

/-- C10 witness: the frame property evaluated on a concrete player with
no voice client, queue `[tA]` and catalog `[tB]`. -/
theorem C10_play_next_without_client_frame_witness :
    (playNextF oAll 1 stNoClient).current_track =
      stNoClient.current_track ∧
    (playNextF oAll 1 stNoClient).pop_count = stNoClient.pop_count ∧
    (playNextF oAll 1 stNoClient).attach_count = stNoClient.attach_count ∧
    (playNextF oAll 1 stNoClient).sink_source = stNoClient.sink_source ∧
    (playNextF oAll 1 stNoClient).tracks = stNoClient.tracks ∧
    (stNoClient.track_queue ≠ [] →
      (playNextF oAll 1 stNoClient).track_queue =
        stNoClient.track_queue) ∧
    (stNoClient.track_queue = [] →
      (playNextF oAll 1 stNoClient).track_queue =
        shuffleList oAll.rand stNoClient.tracks) ∧
    (shuffle_tracks oAll stNoClient).tracks = stNoClient.tracks :=
  C10_play_next_without_client_frame oAll 0 stNoClient rfl

/-- C2: when the first `pre.length` queue heads fail to resolve and the
next head `t` resolves, a single advance discards exactly the failing
heads — one queue pop each, none retried — then attaches `t` and
leaves the rest of the queue untouched. -/
theorem C2_failed_heads_discarded_once (o : Oracle) :
    ∀ (pre : List Track) (fuel : Nat) (st : MusicPlayer) (t : Track)
      (post : List Track),
      st.voice_client = true →
      st.track_queue = pre ++ t :: post →
      (∀ u ∈ pre, o.resolve u = false) →
      o.resolve t = true →
      pre.length + 1 ≤ fuel →
      (playNextF o fuel st).sink_source = some t ∧
      (playNextF o fuel st).current_track = some t ∧
      (playNextF o fuel st).track_queue = post ∧
      (playNextF o fuel st).pop_count = st.pop_count + (pre.length + 1) ∧
      (playNextF o fuel st).attach_count = st.attach_count + 1 := by
  intro pre
  induction pre with
  | nil =>
    intro fuel st t post hvc hq hfail hok hfuel
    cases fuel with
    | zero => exact absurd hfuel (by simp)
    | succ f =>
      rw [playNextF_cons o f st t post (by simpa using hq) hvc]
      simp [hok, popHead]
  | cons u pre ih =>
    intro fuel st t post hvc hq hfail hok hfuel
    cases fuel with
    | zero => exact absurd hfuel (by simp)
    | succ f =>
      have hq' : st.track_queue = u :: (pre ++ t :: post) := by
        simpa using hq
      rw [playNextF_cons o f st u (pre ++ t :: post) hq' hvc]
      have hru : o.resolve u = false := hfail u (List.mem_cons_self u pre)
      simp only [hru, Bool.false_eq_true, if_false]
      have hres := ih f (popHead u (pre ++ t :: post) st) t post
        (by simp [popHead, hvc]) (by simp [popHead])
        (fun v hv => hfail v (List.mem_cons_of_mem u hv)) hok
        (by
          have := Nat.le_of_succ_le_succ hfuel
          simpa using this)
      refine ⟨hres.1, hres.2.1, hres.2.2.1, ?_, ?_⟩
      · rw [hres.2.2.2.1]
        simp [popHead, List.length_cons]
        omega
      · rw [hres.2.2.2.2]
        simp [popHead]

/-- C2 witness: on the queue `[tA, tB, tC]` with only `tA` failing, one
advance pops `tA` and `tB`, attaches `tB`, and leaves `[tC]` queued. -/
theorem C2_failed_heads_discarded_once_witness :
    (playNextF oFailA 2 stQueue3).sink_source = some tB ∧
    (playNextF oFailA 2 stQueue3).current_track = some tB ∧
    (playNextF oFailA 2 stQueue3).track_queue = [tC] ∧
    (playNextF oFailA 2 stQueue3).pop_count = stQueue3.pop_count + 2 ∧
    (playNextF oFailA 2 stQueue3).attach_count =
      stQueue3.attach_count + 1 :=
  C2_failed_heads_discarded_once oFailA [tA] 2 stQueue3 tB [tC]
    rfl rfl (by decide) (by decide) (by decide)

/-- `drainFail` leaves everything but `current_track`, `track_queue`
and `pop_count` alone, and empties the queue it drained. -/
theorem drainFail_fields :
    ∀ (q : List Track) (st : MusicPlayer), st.track_queue = q →
      (drainFail q st).track_queue = [] ∧
      (drainFail q st).voice_client = st.voice_client ∧
      (drainFail q st).tracks = st.tracks ∧
      (drainFail q st).attach_count = st.attach_count ∧
      (drainFail q st).sink_source = st.sink_source := by
  intro q
  induction q with
  | nil => intro st hq; exact ⟨hq, rfl, rfl, rfl, rfl⟩
  | cons t rest ih =>
    intro st _
    have h := ih (popHead t rest st) (by simp [popHead])
    exact ⟨h.1, h.2.1, h.2.2.1, h.2.2.2.1, h.2.2.2.2⟩

/-- Popping an all-failing queue consumes one fuel unit per element and
arrives at the drained state. -/
theorem playNextF_drain (o : Oracle) :
    ∀ (q : List Track) (f : Nat) (st : MusicPlayer),
      st.voice_client = true → st.track_queue = q →
      (∀ u ∈ q, o.resolve u = false) →
      playNextF o (f + q.length) st = playNextF o f (drainFail q st) := by
  intro q
  induction q with
  | nil => intro f st _ _ _; rfl
  | cons t rest ih =>
    intro f st hvc hq hfail
    have hstep : f + (t :: rest).length = (f + rest.length) + 1 := by
      simp [List.length_cons]
      omega
    rw [hstep, playNextF_cons o (f + rest.length) st t rest hq hvc]
    have hrt : o.resolve t = false := hfail t (List.mem_cons_self t rest)
    simp only [hrt, Bool.false_eq_true, if_false]
    exact ih f (popHead t rest st) (by simp [popHead, hvc])
      (by simp [popHead])
      (fun v hv => hfail v (List.mem_cons_of_mem t hv))

/-- A `play_next` step on an empty queue first performs the lazy refill
and then behaves exactly like a step on the refilled state. -/
theorem playNextF_refill (o : Oracle) (f : Nat) (st : MusicPlayer)
    (hq : st.track_queue = []) :
    playNextF o (f + 1) st = playNextF o (f + 1) (shuffle_tracks o st) := by
  conv_lhs => rw [playNextF]
  conv_rhs => rw [playNextF]
  simp only [hq, List.isEmpty_nil, if_true]
  cases hsh : (shuffle_tracks o st).track_queue with
  | nil =>
    simp only [hsh, List.isEmpty_nil, if_true]
    have hdup : shuffle_tracks o (shuffle_tracks o st) =
        shuffle_tracks o st := by
      simp [shuffle_tracks]
    rw [hdup]
    simp only [hsh]
  | cons t rest =>
    simp only [hsh, List.isEmpty_cons, Bool.false_eq_true, if_false]

/-- The body of a `play_next` step on a non-empty queue is exactly
`play_track` on the popped head (failure recursing into `play_next`). -/
theorem playNextF_eq_playTrackF (o : Oracle) (f : Nat) (st : MusicPlayer)
    (t : Track) (rest : List Track)
    (hq : st.track_queue = t :: rest) (hvc : st.voice_client = true) :
    playNextF o (f + 1) st = playTrackF o f t (popHead t rest st) := by
  rw [playNextF_cons o f st t rest hq hvc, playTrackF]
  simp [popHead, hvc]

/-- C4: while a track is playing, `skip` forcibly stops the sink, whose
completion signal runs exactly one advance through the ordinary
completion path: either exactly one new source is attached
(`attach_count` rises by exactly one — never two), or, when neither the
remaining queue nor the (lazily refilled, shuffled) catalog yields a
playable track because both are exhausted, the sink stays detached
(`Idle`) — never zero outcomes. -/
theorem C4_skip_single_advance (o : Oracle) (fuel : Nat)
    (st : MusicPlayer)
    (hvc : st.voice_client = true) (hs : st.sink_source.isSome = true)
    (hfuel : st.track_queue.length + st.tracks.length + 1 ≤ fuel)
    (hterm : (∃ t ∈ st.track_queue, o.resolve t = true) ∨
             ((∀ u ∈ st.track_queue, o.resolve u = false) ∧
              ((∃ t ∈ st.tracks, o.resolve t = true) ∨ st.tracks = []))) :
    (skip o fuel st).attach_count ≤ st.attach_count + 1 ∧
    (((skip o fuel st).attach_count = st.attach_count + 1 ∧
      (skip o fuel st).sink_source.isSome = true) ∨
     ((skip o fuel st).attach_count = st.attach_count ∧
      (skip o fuel st).sink_source = none)) := by
  have hcond : (st.voice_client && st.sink_source.isSome) = true := by
    rw [hvc, hs]; rfl
  rw [skip, if_pos hcond]
  rcases hterm with ⟨t, ht, hrt⟩ | ⟨hallfail, hcat⟩
  · have h := playNextF_attaches o st.track_queue fuel
      { st with sink_source := none } rfl hvc ⟨t, ht, hrt⟩ (by omega)
    exact ⟨Nat.le_of_eq h.1, Or.inl ⟨h.1, h.2⟩⟩
  · -- every queued track fails: the queue drains, then the catalog
    -- decides the outcome
    have hf : fuel = (fuel - st.track_queue.length) +
        st.track_queue.length := by omega
    have hdr := playNextF_drain o st.track_queue
      (fuel - st.track_queue.length) { st with sink_source := none }
      hvc rfl hallfail
    have hdf := drainFail_fields st.track_queue
      { st with sink_source := none } rfl
    set st2 := drainFail st.track_queue { st with sink_source := none }
      with hst2
    have htr : st2.tracks = st.tracks := hdf.2.2.1
    have hatt : st2.attach_count = st.attach_count := hdf.2.2.2.1
    have hsink2 : st2.sink_source = none := hdf.2.2.2.2
    rw [hf, hdr]
    have hflen : st.tracks.length + 1 ≤ fuel - st.track_queue.length := by
      omega
    rcases hcat with ⟨t, ht, hrt⟩ | hempty
    · -- the refilled, shuffled catalog contains a resolvable track
      obtain ⟨f, hfeq⟩ : ∃ f, fuel - st.track_queue.length = f + 1 :=
        ⟨fuel - st.track_queue.length - 1, by omega⟩
      rw [hfeq] at hflen
      rw [hfeq, playNextF_refill o f st2 hdf.1]
      have htm : t ∈ shuffleList o.rand st2.tracks :=
        ((shuffleList_perm o.rand st2.tracks).mem_iff).mpr
          (by rw [htr]; exact ht)
      have h := playNextF_attaches o (shuffleList o.rand st2.tracks)
        (f + 1) (shuffle_tracks o st2) rfl
        (by simp [shuffle_tracks, hdf.2.1, hvc]) ⟨t, htm, hrt⟩
        (by
          rw [(shuffleList_perm o.rand st2.tracks).length_eq, htr]
          omega)
      have hsh_att : (shuffle_tracks o st2).attach_count =
          st.attach_count := by
        simp [shuffle_tracks, hatt]
      rw [hsh_att] at h
      exact ⟨Nat.le_of_eq h.1, Or.inl ⟨h.1, h.2⟩⟩
    · -- catalog is empty too: settle in Idle
      have h := playNextF_empty_empty o (fuel - st.track_queue.length)
        st2 hdf.1 (by rw [htr]; exact hempty)
      refine ⟨?_, Or.inr ⟨?_, ?_⟩⟩
      · rw [h.1, hatt]; exact Nat.le_succ _
      · rw [h.1]; exact hatt
      · rw [h.2.1]; exact hsink2

/-- C4 witness: skipping while `tA` renders, with `tB` queued and
resolvable, attaches exactly one new source. -/
theorem C4_skip_single_advance_witness :
    (skip oAll 4 stPlayingA).attach_count ≤
      stPlayingA.attach_count + 1 ∧
    (((skip oAll 4 stPlayingA).attach_count =
        stPlayingA.attach_count + 1 ∧
      (skip oAll 4 stPlayingA).sink_source.isSome = true) ∨
     ((skip oAll 4 stPlayingA).attach_count = stPlayingA.attach_count ∧
      (skip oAll 4 stPlayingA).sink_source = none)) :=
  C4_skip_single_advance oAll 4 stPlayingA rfl rfl (by decide)
    (Or.inl ⟨tB, by decide, by decide⟩)

/-- C5: a repeated `start` while already playing (with a voice client
attached) changes nothing at all — no second sink attach, no queue
pop. -/
theorem C5_start_idempotent_while_playing (o : Oracle) (fuel : Nat)
    (u : Bool) (st : MusicPlayer)
    (hplay : st.is_playing = true) (hvc : st.voice_client = true) :
    start o fuel u st = st := by
  unfold start
  cases u with
  | false => rfl
  | true => simp [hvc, hplay]

/-- C5 witness: repeated `start` on the concrete playing state is the
identity. -/
theorem C5_start_idempotent_while_playing_witness :
    start oAll 1 true stPlayingA = stPlayingA :=
  C5_start_idempotent_while_playing oAll 1 true stPlayingA rfl rfl

/-- C6: with an empty catalog, `start` by a user in a voice channel
settles in `Idle`: no source is attached to the sink, no track is
dequeued, and the state machine simply returns (the model is total, so
no exception path exists). -/
theorem C6_start_empty_catalog_idles (o : Oracle) (fuel : Nat)
    (st : MusicPlayer) (hcat : st.tracks = []) (hq : st.track_queue = [])
    (hplay : st.is_playing = false) (hsink : st.sink_source = none) :
    (start o fuel true st).sink_source = none ∧
    (start o fuel true st).track_queue = [] ∧
    (start o fuel true st).attach_count = st.attach_count ∧
    (start o fuel true st).pop_count = st.pop_count ∧
    (start o fuel true st).current_track = st.current_track := by
  cases hv : st.voice_client with
  | true =>
    have h := playNextF_empty_empty o fuel
      { st with
        voice_client := true
        is_playing := true
        now_playing_message := some "Starting playback..." } hq hcat
    simp only [start, Bool.not_true, Bool.false_eq_true, if_false, hv,
      hplay, Bool.not_false, if_true]
    exact ⟨h.2.1.trans hsink, h.2.2.1, h.1, h.2.2.2.1, h.2.2.2.2⟩
  | false =>
    have h := playNextF_empty_empty o fuel
      { st with
        voice_client := true
        is_playing := true
        now_playing_message := some "Starting playback..." } hq hcat
    simp only [start, Bool.not_true, Bool.false_eq_true, if_false, hv,
      hplay, Bool.not_false, if_true]
    exact ⟨h.2.1.trans hsink, h.2.2.1, h.1, h.2.2.2.1, h.2.2.2.2⟩

/-- C6 witness: `start` on the fresh empty player attaches nothing and
pops nothing. -/
theorem C6_start_empty_catalog_idles_witness :
    (start oAll 3 true basePlayer).sink_source = none ∧
    (start oAll 3 true basePlayer).track_queue = [] ∧
    (start oAll 3 true basePlayer).attach_count =
      basePlayer.attach_count ∧
    (start oAll 3 true basePlayer).pop_count = basePlayer.pop_count ∧
    (start oAll 3 true basePlayer).current_track =
      basePlayer.current_track :=
  C6_start_empty_catalog_idles oAll 3 basePlayer rfl rfl rfl rfl

/-- C9: once a presence report succeeds at `now1`, a second report
arriving within 5 seconds is a silent no-op — the state is unchanged
and exactly one outbound update was issued across the two calls. -/
theorem C9_presence_second_report_noop (st : MusicPlayer)
    (t1 t2 : Track) (now1 now2 : Nat)
    (h1 : (update_presence now1 (some t1) st).presence_update_count =
      st.presence_update_count + 1)
    (_hle : now1 ≤ now2) (hwin : now2 - now1 ≤ 5) :
    update_presence now2 (some t2) (update_presence now1 (some t1) st) =
      update_presence now1 (some t1) st ∧
    (update_presence now2 (some t2)
        (update_presence now1 (some t1) st)).presence_update_count =
      st.presence_update_count + 1 := by
  have hok : presenceOk now1 st.last_activity_update = true := by
    by_contra hok
    rw [Bool.not_eq_true] at hok
    rw [update_presence] at h1
    simp [hok] at h1
  have hst1 : update_presence now1 (some t1) st =
      { st with
        presence := some (t1.title ++ " - " ++ t1.artist)
        last_activity_update := some now1
        presence_update_count := st.presence_update_count + 1 } := by
    rw [update_presence]
    simp [hok]
  have hnot : presenceOk now2 (some now1) = false := by
    have h5 : ¬ (5 < tdSeconds now2 now1) := by
      unfold tdSeconds
      have hlt : now2 - now1 < 86400 := by omega
      rw [Nat.mod_eq_of_lt hlt]
      omega
    unfold presenceOk
    exact decide_eq_false h5
  constructor
  · rw [hst1, update_presence]
    simp [hnot]
  · rw [hst1, update_presence]
    simp [hnot]

/-- C9 witness: a first report at second 50 updates; a second report at
second 53 is a no-op, for one outbound update in total. -/
theorem C9_presence_second_report_noop_witness :
    update_presence 53 (some tB) (update_presence 50 (some tA) basePlayer)
      = update_presence 50 (some tA) basePlayer ∧
    (update_presence 53 (some tB)
        (update_presence 50 (some tA) basePlayer)).presence_update_count
      = basePlayer.presence_update_count + 1 :=
  C9_presence_second_report_noop basePlayer tA tB 50 53 (by decide)
    (by decide) (by decide)

/-- C1: evaluation of `stop` while `tA` renders with `tB` queued.
`voice_client.stop()` fires the registered after-callback, so
`play_next` runs: `tB` is dequeued (the queue is emptied, one pop, one
attach), `current_track` becomes `tB` instead of being cleared, and the
presence is re-set — playback continues after an explicit stop. -/
theorem C1_stop_dequeues_and_attaches_next :
    (stop oAll 5 stPlayingA).track_queue = [] ∧
    (stop oAll 5 stPlayingA).current_track = some tB ∧
    (stop oAll 5 stPlayingA).sink_source = some tB ∧
    (stop oAll 5 stPlayingA).pop_count = 1 ∧
    (stop oAll 5 stPlayingA).attach_count = 1 ∧
    (stop oAll 5 stPlayingA).is_playing = false ∧
    (stop oAll 5 stPlayingA).presence.isSome = true := by
  decide

/-- C7: evaluation of `add_playlist` on a non-SoundCloud URL for which
yt-dlp returns an `info` dict whose `entries` list is empty: the call
reports success with zero tracks and `playlists.json` is rewritten with
a new empty playlist, instead of failing with files untouched. -/
theorem C7_addplaylist_empty_entries_succeeds :
    (add_playlist false SCResolution.failed (some ydlEmptyEntries) none
      baseCatalog).1 = (true, "Added playlist: P with 0 tracks") ∧
    (add_playlist false SCResolution.failed (some ydlEmptyEntries) none
      baseCatalog).2.playlistsFile = [("P", [])] ∧
    (add_playlist false SCResolution.failed (some ydlEmptyEntries) none
      baseCatalog).2.save_playlists_calls = 1 ∧
    (add_playlist false SCResolution.failed (some ydlEmptyEntries) none
      baseCatalog).2.tracks = [] := by
  decide

/-- C8 counterexample: a successful SoundCloud `add_playlist` of one
track leaves `tracks.json` exactly as it was (and `save_tracks` is
never invoked), so the saved catalog file does not reflect the newly
added tracks — refuting the claim that both catalog and playlist are
persisted. -/
theorem C8_catalog_file_not_saved :
    (add_playlist true (SCResolution.playlist "u" scPL) none none
      baseCatalog).1.1 = true ∧
    (add_playlist true (SCResolution.playlist "u" scPL) none none
      baseCatalog).2.tracks = [trackOfSC scT] ∧
    (add_playlist true (SCResolution.playlist "u" scPL) none none
      baseCatalog).2.tracksFile = [] ∧
    (add_playlist true (SCResolution.playlist "u" scPL) none none
      baseCatalog).2.save_tracks_calls = 0 ∧
    (add_playlist true (SCResolution.playlist "u" scPL) none none
      baseCatalog).2.tracksFile ≠
      (add_playlist true (SCResolution.playlist "u" scPL) none none
        baseCatalog).2.tracks := by
  decide

/-- Helper for C8: every successful run of the yt-dlp fallback merges
the discovered tracks into the in-memory catalog, stores and saves the
playlist, and leaves `tracks.json` untouched. -/
theorem add_playlist_ydl_success (ydl : Option YDLInfo)
    (name : Option String) (s : CatalogState)
    (h : (add_playlist_ydl ydl name s).1.1 = true) :
    (add_playlist_ydl ydl name s).2.tracks =
      s.tracks ++ discovered_tracks_ydl ydl ∧
    (add_playlist_ydl ydl name s).2.playlists =
      upsert (result_name_ydl ydl name) (discovered_tracks_ydl ydl)
        s.playlists ∧
    (add_playlist_ydl ydl name s).2.playlistsFile =
      upsert (result_name_ydl ydl name) (discovered_tracks_ydl ydl)
        s.playlists ∧
    (add_playlist_ydl ydl name s).2.tracksFile = s.tracksFile ∧
    (add_playlist_ydl ydl name s).2.save_tracks_calls =
      s.save_tracks_calls := by
  cases ydl with
  | none => simp [add_playlist_ydl] at h
  | some info =>
    cases hE : info.entries with
    | none => simp [add_playlist_ydl, hE] at h
    | some entries =>
      simp [add_playlist_ydl, hE, discovered_tracks_ydl,
        result_name_ydl, save_playlists]

/-- C8 (amended): every successful `add_playlist` merges the discovered
tracks into the in-memory catalog and persists the new named playlist
to `playlists.json`, but never rewrites the catalog file —
`save_tracks` is not invoked, so `tracks.json` stays as it was. -/
theorem C8_success_merges_and_saves_playlist_only (isSC : Bool)
    (sc : SCResolution) (ydl : Option YDLInfo) (name : Option String)
    (s : CatalogState)
    (h : (add_playlist isSC sc ydl name s).1.1 = true) :
    (add_playlist isSC sc ydl name s).2.tracks =
      s.tracks ++ discovered_tracks isSC sc ydl ∧
    (add_playlist isSC sc ydl name s).2.playlists =
      upsert (result_playlist_name isSC sc ydl name)
        (discovered_tracks isSC sc ydl) s.playlists ∧
    (add_playlist isSC sc ydl name s).2.playlistsFile =
      upsert (result_playlist_name isSC sc ydl name)
        (discovered_tracks isSC sc ydl) s.playlists ∧
    (add_playlist isSC sc ydl name s).2.tracksFile = s.tracksFile ∧
    (add_playlist isSC sc ydl name s).2.save_tracks_calls =
      s.save_tracks_calls := by
  cases isSC with
  | false => exact add_playlist_ydl_success ydl name s h
  | true =>
    cases sc with
    | failed => exact add_playlist_ydl_success ydl name s h
    | playlist u pd =>
      cases hE : (pd.tracks.map trackOfSC).isEmpty with
      | true => simp [add_playlist, hE] at h
      | false =>
        simp [add_playlist, hE, discovered_tracks,
          result_playlist_name, save_playlists]

/-- C8 witness: the amended persistence property evaluated on the
concrete one-track SoundCloud playlist. -/
theorem C8_success_merges_and_saves_playlist_only_witness :
    (add_playlist true (SCResolution.playlist "u" scPL) none none
      baseCatalog).2.tracks =
      baseCatalog.tracks ++
        discovered_tracks true (SCResolution.playlist "u" scPL) none ∧
    (add_playlist true (SCResolution.playlist "u" scPL) none none
      baseCatalog).2.playlists =
      upsert
        (result_playlist_name true (SCResolution.playlist "u" scPL)
          none none)
        (discovered_tracks true (SCResolution.playlist "u" scPL) none)
        baseCatalog.playlists ∧
    (add_playlist true (SCResolution.playlist "u" scPL) none none
      baseCatalog).2.playlistsFile =
      upsert
        (result_playlist_name true (SCResolution.playlist "u" scPL)
          none none)
        (discovered_tracks true (SCResolution.playlist "u" scPL) none)
        baseCatalog.playlists ∧
    (add_playlist true (SCResolution.playlist "u" scPL) none none
      baseCatalog).2.tracksFile = baseCatalog.tracksFile ∧
    (add_playlist true (SCResolution.playlist "u" scPL) none none
      baseCatalog).2.save_tracks_calls = baseCatalog.save_tracks_calls :=
  C8_success_merges_and_saves_playlist_only true
    (SCResolution.playlist "u" scPL) none none baseCatalog (by decide)

end BBot
